import Mathlib

/-!
Shallow embedding of the mangadex-dlz chapter acquisition-and-archival
pipeline (src/mangadex_dl/chapter.py and src/mangadex_dl/mangadex.py).

Network fetches, image decoding and file-system steps are modelled by
oracles describing their outcomes; the control flow, arithmetic and string
processing are translated directly from the source.
-/

namespace MangadexDl

/-- ChapterInfo as produced by chapter.get_chapter_info: id, series_id,
chapter number, volume number and title. -/
structure ChapterInfo where
  id : String
  series_id : String
  chapter : ℚ
  volume : Int
  title : String
deriving Repr, DecidableEq

/-- A decoded page image, abstracted to its pixel dimensions
(chapter.py download_chapter_image works on image.size = (width, height)). -/
structure Image where
  width : ℕ
  height : ℕ
deriving Repr, DecidableEq

/-- Outcome of one attempt of the retry loop in download_chapter_image:
the network request raises HTTPError, or the decode/convert/resize/save
block raises OSError, or the attempt yields a decoded image. -/
inductive AttemptOutcome where
  | fetchFail : AttemptOutcome
  | decodeFail : AttemptOutcome
  | ok : Image → AttemptOutcome
deriving Repr, DecidableEq

/-- Whether an attempt outcome is a successful decode. -/
def isOkAttempt : AttemptOutcome → Bool
  | .ok _ => true
  | _ => false

/-- The resize step of download_chapter_image (chapter.py lines 181-190):
if height > 2400 then ratio = width / height and the image is resized to
(floor (ratio * 2400), 2400); over the rationals
floor (width / height * 2400) is natural-number division
width * 2400 / height. Otherwise the image is unchanged. -/
def processImage (img : Image) : Image :=
  if 2400 < img.height then ⟨img.width * 2400 / img.height, 2400⟩ else img

/-- Result of download_chapter_image: the staged (processed) image together
with the number of attempts made, or failure after the recorded number of
attempts (the raised OSError at chapter.py line 197). -/
inductive DLResult where
  | staged : Image → ℕ → DLResult
  | failed : ℕ → DLResult
deriving Repr, DecidableEq

/-- The retry loop `for attempt in range(5)` of download_chapter_image,
with `i` the index of the next attempt and the fuel counting the remaining
iterations; `oracle i` is the outcome of attempt `i` (0-based). An HTTPError
or OSError falls through to the next iteration; a decoded image is resized
and saved, and the loop breaks. -/
def downloadAttempts (oracle : ℕ → AttemptOutcome) : ℕ → ℕ → DLResult
  | i, 0 => .failed i
  | i, fuel + 1 =>
    match oracle i with
    | .ok img => .staged (processImage img) (i + 1)
    | _ => downloadAttempts oracle (i + 1) fuel

/-- chapter.download_chapter_image: five total attempts. -/
def download_chapter_image (oracle : ℕ → AttemptOutcome) : DLResult :=
  downloadAttempts oracle 0 5

/-- Python format f-string 03d used for page file names: decimal digits
zero-padded on the left to width 3. -/
def pad3 (i : ℕ) : String :=
  let s := toString i
  ⟨List.replicate (3 - s.length) '0'⟩ ++ s

/-- The page loop of chapter.download_chapter (lines 239-248): pages are
enumerated from 1; each page runs download_chapter_image with its own
attempt oracle `att i`; a page failure aborts the chapter with the
propagated OSError. On success the list of staged page file names is
returned. -/
def downloadPages (att : ℕ → ℕ → AttemptOutcome) : ℕ → List String → Except Unit (List String)
  | _, [] => .ok []
  | i, _ :: rest =>
    match download_chapter_image (att i) with
    | .staged _ _ =>
      match downloadPages att (i + 1) rest with
      | .ok fs => .ok ((pad3 i ++ ".jpg") :: fs)
      | .error e => .error e
    | .failed _ => .error ()

/-- chapter.download_chapter, modelled on its page-URL list: downloads every
page in order, returning the staged page file names or the first failure. -/
def download_chapter (imageUrls : List String) (att : ℕ → ℕ → AttemptOutcome) :
    Except Unit (List String) :=
  downloadPages att 1 imageUrls

/-- chapter.get_chapter_image_urls (lines 90-113): when the hosting data is
absent the function logs a warning and returns []; otherwise each file name
is combined with the base URL and hash, a missing base URL or hash skipping
that entry. -/
def get_chapter_image_urls (baseUrl chapterHash : Option String)
    (chapterData : Option (List String)) : List String :=
  match chapterData with
  | none => []
  | some files =>
    files.filterMap (fun f =>
      match baseUrl, chapterHash with
      | some b, some h => some (b ++ "/data/" ++ h ++ "/" ++ f)
      | _, _ => none)

/-- The ASCII character class letters, digits, underscore, dash, period,
space. On ASCII characters this is exactly the class kept by the re.sub
calls of get_chapter_directory (chapter.py lines 139-140), since Python's
Unicode-aware word class coincides with letters, digits and underscore
there; Python additionally keeps non-ASCII word characters, which this
class does not contain. -/
def allowedFileChar (c : Char) : Bool :=
  c.isAlphanum || c == '_' || c == '-' || c == '.' || c == ' '

/-- The class kept by the regular expression of get_chapter_directory: the
word class of the regex engine (supplied as the parameter `w`, since its
Unicode tables live outside this repository), dash, underscore, period and
space. -/
def keptChar (w : Char → Bool) (c : Char) : Bool :=
  w c || c == '-' || c == '_' || c == '.' || c == ' '

/-- One character of the re.sub of get_chapter_directory: kept when in the
class, replaced by an underscore otherwise. -/
def sanitizeChar (w : Char → Bool) (c : Char) : Char :=
  if keptChar w c then c else '_'

/-- The re.sub call of get_chapter_directory applied to a title, with the
word class supplied as a parameter. -/
def sanitize_title (w : Char → Bool) (s : String) : String :=
  ⟨s.data.map (sanitizeChar w)⟩

/-- Modelled from Python's re module (external to this repository): the
word class restricted to ASCII characters, where it matches exactly
letters, digits and underscore; faithful for ASCII strings. -/
def asciiWordChar (c : Char) : Bool :=
  c.isAlphanum || c == '_'

/-- Modelled from Python's re module and the Unicode character database
(both external to this repository): the word class restricted to the
Latin-1 range, where it matches letters, digits and underscore, the
ordinal indicators at 170 and 186, the micro sign at 181, the superscript
digits at 178, 179 and 185, the vulgar fractions at 188, 189 and 190, and
the accented letters from 192 to 255 except the multiplication sign at 215
and the division sign at 247; faithful for strings of characters below
256. -/
def latin1WordChar (c : Char) : Bool :=
  c.isAlphanum || c == '_' ||
  (decide (192 ≤ c.toNat) && decide (c.toNat ≤ 255) &&
    decide (c.toNat ≠ 215) && decide (c.toNat ≠ 247)) ||
  c.toNat == 170 || c.toNat == 181 || c.toNat == 186 ||
  c.toNat == 178 || c.toNat == 179 || c.toNat == 185 ||
  c.toNat == 188 || c.toNat == 189 || c.toNat == 190

/-- Python fixed-point format with width 5 and 1 decimal place, for the
non-negative chapter numbers of the data model: round to tenths, print
integer part, point, tenths digit, and zero-pad on the left to width 5.
Python rounds the binary double half-even; the model rounds half-up over
the rationals, which agrees on every input that is an exact multiple of a
tenth (as chapter numbers are) and differs only at other midpoints. -/
def pyFormat051 (q : ℚ) : String :=
  let t : Int := ⌊q * 10 + 1 / 2⌋
  let base := toString (Int.ediv t 10) ++ "." ++ toString (Int.emod t 10)
  (⟨List.replicate (5 - base.length) '0'⟩ : String) ++ base

/-- Python str.rstrip with a single strip character: remove every trailing
occurrence of that character. -/
def rstrip (c : Char) (s : String) : String :=
  ⟨(s.data.reverse.dropWhile (fun d => d == c)).reverse⟩

/-- chapter.get_chapter_directory (chapter.py lines 116-144): sanitize both
titles with the regex engine's word class `w`, then (series + slash +
formatted chapter number).rstrip of zeros, then rstrip of the point, then a
space and the chapter title. -/
def get_chapter_directory (w : Char → Bool) (series_title : String)
    (chapter_number : ℚ) (chapter_title : String) : String :=
  let ct := sanitize_title w chapter_title
  let st := sanitize_title w series_title
  rstrip '.' (rstrip '0' (st ++ "/" ++ pyFormat051 chapter_number)) ++ " " ++ ct

/-- The persisted cache document: a JSON object mapping series ids to lists
of chapter ids, modelled as an association list in insertion order. -/
abbrev CacheDoc := List (String × List String)

/-- The read-modify-write body of _add_chapter_to_downloaded
(mangadex.py line 85): file_data.setdefault(series_id, []).append(chapter_id)
appends the chapter id to the entry of the series key, creating the key at
the end of the document when new. -/
def recordInDoc : CacheDoc → String → String → CacheDoc
  | [], sid, cid => [(sid, [cid])]
  | (k, l) :: t, sid, cid =>
    if k == sid then (k, l ++ [cid]) :: t else (k, l) :: recordInDoc t sid cid

/-- MangaDexDL._add_chapter_to_downloaded (mangadex.py lines 80-97): a
two-iteration loop; each iteration opens the cache file, and on
FileNotFoundError re-creates it with _ensure_cache_file_exists and retries.
`fs` is the document found at the first open (none when the file is
missing), `recreateOk` whether the re-creation write succeeds, and
`deletedAgain` whether the file is missing again at the second open.
Returns the written document or the final FileNotFoundError, together with
the number of open attempts made. -/
def add_chapter_to_downloaded (sid cid : String) (fs : Option CacheDoc)
    (recreateOk deletedAgain : Bool) : Except Unit CacheDoc × ℕ :=
  match fs with
  | some doc => (.ok (recordInDoc doc sid cid), 1)
  | none =>
    if recreateOk then
      if deletedAgain then (.error (), 2) else (.ok (recordInDoc [] sid cid), 2)
    else (.error (), 2)

/-- MangaDexDL._get_excluded_chapters_from_cache (mangadex.py lines
162-172): the empty list in override mode, otherwise the concatenation of
every series entry of the cache document in order. -/
def get_excluded_chapters_from_cache (override : Bool) (cache : CacheDoc) :
    List String :=
  if override then [] else (cache.map Prod.snd).flatten

/-- The dedup decision of MangaDexDL.handle_chapter_id (mangadex.py lines
310-315): _process_chapter runs only when the chapter id is not in the
excluded list. -/
def handle_chapter_id_processes (override : Bool) (cache : CacheDoc)
    (cid : String) : Bool :=
  !(get_excluded_chapters_from_cache override cache).contains cid

/-- Modelled from the spec: md_series.get_series_chapters (module series.py
is not under src/) resolves each chapter id, in order, to its full
ChapterInfo via the gateway; as exhibited by chapter.get_chapter_info,
the returned record's id field is the requested id. -/
def get_series_chapters (resolve : String → ChapterInfo) (ids : List String) :
    List ChapterInfo :=
  ids.map resolve

/-- The non-cover branch of MangaDexDL.handle_series_id (mangadex.py lines
276-282): chapter ids are filtered against the exclusion list before
resolution. -/
def filter_before_resolution (resolve : String → ChapterInfo)
    (ids excluded : List String) : List ChapterInfo :=
  get_series_chapters resolve (ids.filter (fun i => !excluded.contains i))

/-- The chapter-cover branch of MangaDexDL.handle_series_id (mangadex.py
lines 268-274): all chapters are resolved first, then filtered by id. -/
def filter_after_resolution (resolve : String → ChapterInfo)
    (ids excluded : List String) : List ChapterInfo :=
  (get_series_chapters resolve ids).filter (fun c => !excluded.contains c.id)

/-- Observable state of one chapter-processing attempt: whether the staging
directory exists, whether the cache document holds the chapter id, and
whether the chapter archive file exists. -/
structure ChapterState where
  stagingExists : Bool
  cacheHasChapter : Bool
  archiveExists : Bool
deriving Repr, DecidableEq

/-- The errors _process_chapter can raise: FailedImageError from
download_chapter, the OSError re-raised from the cache write,
ComicInfoError from create_comicinfo, and the OSError from create_cbz. -/
inductive PipelineError where
  | failedImage : PipelineError
  | cacheWrite : PipelineError
  | comicInfo : PipelineError
  | archiveWrite : PipelineError
deriving Repr, DecidableEq

/-- Outcomes of the fallible steps of _process_chapter: the result of
download_chapter (staged page file names or failure), and whether the cache
write, create_comicinfo and create_cbz calls succeed (the latter two live
in utils.py, outside src/, so only their success or failure is modelled). -/
structure StepOutcomes where
  pages : Except Unit (List String)
  cacheOk : Bool
  comicinfoOk : Bool
  cbzOk : Bool

/-- A run of _process_chapter: the trace of observable states in order, the
page file names packaged into the archive when one was built, and the
raised error if any. -/
structure RunResult where
  trace : List ChapterState
  archivedPages : Option (List String)
  err : Option PipelineError

/-- MangaDexDL._process_chapter (mangadex.py lines 99-160), as a state
machine over ChapterState. The staging directory is created by the
os.makedirs call of download_chapter_image before the first page attempt.
In order: download_chapter (a failure raises FailedImageError with no
cleanup); if not override, _add_chapter_to_downloaded (a failure re-raises
OSError with no cleanup); create_comicinfo (a failure removes the staging
directory, then raises); create_cbz (a failure removes the staging
directory, then raises); shutil.rmtree of the staging directory. -/
def process_chapter (override : Bool) (o : StepOutcomes) : RunResult :=
  let sInit : ChapterState := ⟨false, false, false⟩
  let sStaged : ChapterState := ⟨true, false, false⟩
  match o.pages with
  | .error _ => ⟨[sInit, sStaged], none, some .failedImage⟩
  | .ok pages =>
    if !override && !o.cacheOk then
      ⟨[sInit, sStaged], none, some .cacheWrite⟩
    else
      let sCached : ChapterState := ⟨true, !override, false⟩
      if !o.comicinfoOk then
        ⟨[sInit, sStaged, sCached, ⟨false, !override, false⟩], none, some .comicInfo⟩
      else if !o.cbzOk then
        ⟨[sInit, sStaged, sCached, ⟨false, !override, false⟩], none, some .archiveWrite⟩
      else
        ⟨[sInit, sStaged, sCached, ⟨true, !override, true⟩, ⟨false, !override, true⟩],
          some pages, none⟩

/-- The state in which a run of _process_chapter returns to its caller. -/
def lastState (r : RunResult) : ChapterState :=
  r.trace.getLastD ⟨false, false, false⟩

/-- A JSON attribute value as consumed by get_chapter_info: a string, a
number, or null. -/
inductive JVal where
  | str : String → JVal
  | num : ℚ → JVal
  | null : JVal
deriving Repr, DecidableEq

/-- The errors of Python numeric conversion: ValueError for an unparseable
string, TypeError for None. -/
inductive NumErr where
  | valueErr : NumErr
  | typeErr : NumErr
deriving Repr, DecidableEq

/-- Split a character list at every point character. -/
def splitOnDot : List Char → List (List Char)
  | [] => [[]]
  | c :: t =>
    if c = '.' then [] :: splitOnDot t
    else
      match splitOnDot t with
      | h :: r => (c :: h) :: r
      | [] => [[c]]

/-- The value of a non-empty all-digit character list, none otherwise. -/
def digitsToNat (l : List Char) : Option ℕ :=
  if l.isEmpty then none
  else if l.all Char.isDigit then
    some (l.foldl (fun acc c => acc * 10 + (c.toNat - 48)) 0)
  else none

/-- Modelled restriction of Python float(str) to the unsigned decimal
literals produced by the gateway: digits, optionally a point and digits. -/
def parseDecimal (s : String) : Option ℚ :=
  match splitOnDot s.data with
  | [a] => (digitsToNat a).map (fun n => (n : ℚ))
  | [a, b] =>
    match digitsToNat a, digitsToNat b with
    | some n, some f => some ((n : ℚ) + (f : ℚ) / (10 : ℚ) ^ b.length)
    | _, _ => none
  | _ => none

/-- Modelled restriction of Python int(str) to unsigned digit strings;
int raises ValueError on anything else, including decimal points. -/
def parsePyInt (s : String) : Option Int :=
  (digitsToNat s.data).map (fun n => (n : Int))

/-- Python float(x) for a JSON attribute value: a number is returned, a
string is parsed (ValueError when non-numeric), None raises TypeError. -/
def pyFloatOf : JVal → Except NumErr ℚ
  | .num q => .ok q
  | .str s =>
    match parseDecimal s with
    | some q => .ok q
    | none => .error .valueErr
  | .null => .error .typeErr

/-- Python int(x) for a JSON attribute value: a number is truncated toward
zero, a digit string is parsed (ValueError otherwise), None raises
TypeError. -/
def pyIntOf : JVal → Except NumErr Int
  | .num q => .ok (Int.tdiv q.num (q.den : Int))
  | .str s =>
    match parsePyInt s with
    | some n => .ok n
    | none => .error .valueErr
  | .null => .error .typeErr

/-- The numeric block of chapter.get_chapter_info (chapter.py lines 64-68):
chapter_info.chapter = float(attributes.get with default 0), then
chapter_info.volume = int(attributes.get with default 0); an absent
attribute therefore defaults before conversion. -/
def get_chapter_info_numbers (chapterAttr volumeAttr : Option JVal) :
    Except NumErr (ℚ × Int) := do
  let c ← pyFloatOf (chapterAttr.getD (.num 0))
  let v ← pyIntOf (volumeAttr.getD (.num 0))
  return (c, v)

/-! Theorems -/

/-- When every attempt in the window fails, the retry loop exhausts its fuel
and reports as many attempts as iterations run. -/
theorem downloadAttempts_all_fail (oracle : ℕ → AttemptOutcome) (fuel : ℕ) :
    ∀ i, (∀ j, i ≤ j → j < i + fuel → isOkAttempt (oracle j) = false) →
      downloadAttempts oracle i fuel = .failed (i + fuel) := by
  induction fuel with
  | zero => intro i _; simp [downloadAttempts]
  | succ n ih =>
    intro i h
    have h0 : isOkAttempt (oracle i) = false := h i (le_refl i) (by omega)
    cases ho : oracle i with
    | ok img => rw [ho] at h0; simp [isOkAttempt] at h0
    | fetchFail =>
      have hrec := ih (i + 1) (fun j hj1 hj2 => h j (by omega) (by omega))
      simp only [downloadAttempts, ho, hrec]
      simp only [DLResult.failed.injEq]
      omega
    | decodeFail =>
      have hrec := ih (i + 1) (fun j hj1 hj2 => h j (by omega) (by omega))
      simp only [downloadAttempts, ho, hrec]
      simp only [DLResult.failed.injEq]
      omega

/-- When the first successful attempt in the window is attempt k, the loop
stages the processed image after k + 1 attempts. -/
theorem downloadAttempts_first_ok (oracle : ℕ → AttemptOutcome) (fuel : ℕ) :
    ∀ i k img, i ≤ k → k < i + fuel →
      (∀ j, i ≤ j → j < k → isOkAttempt (oracle j) = false) →
      oracle k = .ok img →
      downloadAttempts oracle i fuel = .staged (processImage img) (k + 1) := by
  induction fuel with
  | zero => intro i k img h1 h2 _ _; omega
  | succ n ih =>
    intro i k img hik hk hfail hok
    by_cases hi : i = k
    · subst hi; simp [downloadAttempts, hok]
    · have h0 : isOkAttempt (oracle i) = false := hfail i (le_refl i) (by omega)
      cases ho : oracle i with
      | ok img2 => rw [ho] at h0; simp [isOkAttempt] at h0
      | fetchFail =>
        have hrec := ih (i + 1) k img (by omega) (by omega)
          (fun j a b => hfail j (by omega) b) hok
        simp only [downloadAttempts, ho, hrec]
      | decodeFail =>
        have hrec := ih (i + 1) k img (by omega) (by omega)
          (fun j a b => hfail j (by omega) b) hok
        simp only [downloadAttempts, ho, hrec]

/-- C3: a page whose fetch or decode/save fails on every attempt makes
exactly 5 attempts and then fails, and the failure aborts the whole chapter
with the image-acquisition error; a page whose first success is attempt
k < 5 (0-based) is staged after k + 1 attempts, with no further attempts. -/
theorem retry_bound (oracle : ℕ → AttemptOutcome) :
    ((∀ i, i < 5 → isOkAttempt (oracle i) = false) →
        download_chapter_image oracle = .failed 5 ∧
        download_chapter ["u1"] (fun _ => oracle) = .error ())
  ∧ (∀ k img, k < 5 → (∀ j, j < k → isOkAttempt (oracle j) = false) →
        oracle k = .ok img →
        download_chapter_image oracle = .staged (processImage img) (k + 1)) := by
  constructor
  · intro h
    have h5 : download_chapter_image oracle = .failed 5 :=
      downloadAttempts_all_fail oracle 5 0 (fun j _ h2 => h j (by omega))
    refine ⟨h5, ?_⟩
    simp [download_chapter, downloadPages, h5]
  · intro k img hk hfail hok
    exact downloadAttempts_first_ok oracle 5 0 k img (by omega) (by omega)
      (fun j _ b => hfail j b) hok

/-- Witness for retry_bound at a page failing every attempt and a page
succeeding on the third attempt. -/
theorem retry_bound_witness :
    download_chapter_image (fun _ => AttemptOutcome.fetchFail) = .failed 5 ∧
    download_chapter_image
        (fun i => if i = 2 then .ok ⟨100, 300⟩ else .fetchFail) =
      .staged (processImage ⟨100, 300⟩) 3 :=
  ⟨((retry_bound (fun _ => AttemptOutcome.fetchFail)).1 (fun i _ => rfl)).1,
   (retry_bound (fun i => if i = 2 then .ok ⟨100, 300⟩ else .fetchFail)).2
     2 ⟨100, 300⟩ (by omega) (fun j hj => by interval_cases j <;> rfl) (by simp)⟩

/-- C4: a decoded page taller than 2400 pixels is staged at height exactly
2400 with the width/height ratio preserved within one pixel of rounding
(the staged width is the floor of the scaled width); a page of height at
most 2400 keeps its original dimensions; pages are never upscaled. -/
theorem downscale_invariant (img : Image) :
    (2400 < img.height →
        (processImage img).height = 2400 ∧
        (processImage img).width * img.height ≤ img.width * 2400 ∧
        img.width * 2400 < ((processImage img).width + 1) * img.height)
  ∧ (img.height ≤ 2400 → processImage img = img)
  ∧ (processImage img).height ≤ img.height
  ∧ (processImage img).width ≤ img.width := by
  refine ⟨?_, ?_, ?_, ?_⟩
  · intro h
    simp only [processImage, if_pos h]
    refine ⟨by trivial, Nat.div_mul_le_self _ _, ?_⟩
    have hpos : 0 < img.height := by omega
    have hdm := Nat.div_add_mod (img.width * 2400) img.height
    have hm : img.width * 2400 % img.height < img.height :=
      Nat.mod_lt _ hpos
    calc img.width * 2400
        = img.height * (img.width * 2400 / img.height) +
            img.width * 2400 % img.height := hdm.symm
      _ < img.height * (img.width * 2400 / img.height) + img.height := by omega
      _ = (img.width * 2400 / img.height + 1) * img.height := by ring
  · intro h
    simp only [processImage]
    rw [if_neg (by omega)]
  · by_cases h : 2400 < img.height
    · simp only [processImage, if_pos h]; omega
    · simp only [processImage, if_neg h]
      exact Nat.le_refl _
  · by_cases h : 2400 < img.height
    · simp only [processImage, if_pos h]
      calc img.width * 2400 / img.height
          ≤ img.width * img.height / img.height :=
            Nat.div_le_div_right (Nat.mul_le_mul_left _ (le_of_lt h))
        _ = img.width := Nat.mul_div_cancel _ (by omega)
    · simp only [processImage, if_neg h]
      exact Nat.le_refl _

/-- Witness for downscale_invariant: a 1000 by 4800 page downscales to
height 2400, a 1000 by 2400 page is unchanged. -/
theorem downscale_invariant_witness :
    (processImage ⟨1000, 4800⟩).height = 2400 ∧
    processImage ⟨1000, 2400⟩ = ⟨1000, 2400⟩ :=
  ⟨((downscale_invariant ⟨1000, 4800⟩).1 (by decide)).1,
   (downscale_invariant ⟨1000, 2400⟩).2.1 (by decide)⟩

/-- On a fully ASCII string, sanitization with any word class that agrees
with letters, digits and underscore on ASCII coincides with sanitization
with the ASCII word class. -/
theorem sanitize_title_ascii (w : Char → Bool)
    (hascii : ∀ c : Char, c.toNat < 128 → w c = (c.isAlphanum || c == '_'))
    (s : String) (hs : s.data.all (fun c => c.toNat < 128) = true) :
    sanitize_title w s = sanitize_title asciiWordChar s := by
  rw [List.all_eq_true] at hs
  show (⟨s.data.map (sanitizeChar w)⟩ : String) =
    ⟨s.data.map (sanitizeChar asciiWordChar)⟩
  congr 1
  apply List.map_congr_left
  intro c hc
  have h128 : c.toNat < 128 := by simpa using hs c hc
  simp [sanitizeChar, keptChar, hascii c h128, asciiWordChar]

/-- C5 counterexample: for the spec's own example inputs, chapter number
12.0 renders zero-padded as 012, not as 12; and the non-ASCII word
character at code point 233 lies outside the claimed ASCII class yet is
kept unreplaced by the substitution (evaluated with the word class on its
faithful Latin-1 domain). -/
theorem naming_counterexample :
    get_chapter_directory asciiWordChar "Sword?Art/Online" 12 "Online" =
        "Sword_Art_Online/012 Online" ∧
    get_chapter_directory asciiWordChar "Sword?Art/Online" 12 "Online" ≠
        "Sword_Art_Online/12 Online" ∧
    allowedFileChar 'é' = false ∧
    sanitizeChar latin1WordChar 'é' = 'é' := by
  have h : ⌊(12 : ℚ) * 10 + 1 / 2⌋ = (120 : Int) := by
    rw [Int.floor_eq_iff]
    norm_num
  refine ⟨?_, ?_, ?_, ?_⟩
  · simp only [get_chapter_directory, pyFormat051, h]
    decide
  · simp only [get_chapter_directory, pyFormat051, h]
    decide
  · decide
  · decide

/-- C5 amended: for every word class agreeing with Python's on ASCII,
get_chapter_directory replaces every ASCII character outside the class
letters, digits, underscore, period, dash, space in the series and chapter
titles with an underscore, keeps every ASCII character inside that class,
and keeps every character of the word class (so non-ASCII word characters
such as the one at code point 233 survive unreplaced); the chapter number
is rendered with the Python width-5 one-decimal format before trimming
trailing zeros and a trailing point, so title Sword?Art/Online yields a
path segment free of the question mark and slash, chapter number 12.0
renders as 012, and 12.5 renders as 012.5. -/
theorem naming_sanitization (w : Char → Bool)
    (hascii : ∀ c : Char, c.toNat < 128 → w c = (c.isAlphanum || c == '_')) :
    (∀ c : Char, c.toNat < 128 → allowedFileChar c = false →
        sanitizeChar w c = '_')
  ∧ (∀ c : Char, c.toNat < 128 → allowedFileChar c = true →
        sanitizeChar w c = c)
  ∧ (∀ c : Char, w c = true → sanitizeChar w c = c)
  ∧ get_chapter_directory w "Sword?Art/Online" 12 "Online" =
      "Sword_Art_Online/012 Online"
  ∧ get_chapter_directory w "Sword?Art/Online" (25 / 2) "Online" =
      "Sword_Art_Online/012.5 Online" := by
  have hser : sanitize_title w "Sword?Art/Online" =
      sanitize_title asciiWordChar "Sword?Art/Online" :=
    sanitize_title_ascii w hascii "Sword?Art/Online" (by decide)
  have hct : sanitize_title w "Online" =
      sanitize_title asciiWordChar "Online" :=
    sanitize_title_ascii w hascii "Online" (by decide)
  refine ⟨?_, ?_, ?_, ?_, ?_⟩
  · intro c h128 hfc
    have hw := hascii c h128
    simp only [allowedFileChar, Bool.or_eq_false_iff] at hfc
    obtain ⟨⟨⟨⟨h1, h2⟩, h3⟩, h4⟩, h5⟩ := hfc
    simp [sanitizeChar, keptChar, hw, h1, h2, h3, h4, h5]
  · intro c h128 hfc
    have hw := hascii c h128
    have hk : keptChar w c = true := by
      simp only [allowedFileChar, Bool.or_eq_true, beq_iff_eq] at hfc
      simp only [keptChar, hw, Bool.or_eq_true, beq_iff_eq]
      tauto
    simp [sanitizeChar, hk]
  · intro c hwc
    simp [sanitizeChar, keptChar, hwc]
  · have h : ⌊(12 : ℚ) * 10 + 1 / 2⌋ = (120 : Int) := by
      rw [Int.floor_eq_iff]
      norm_num
    simp only [get_chapter_directory, hser, hct, pyFormat051, h]
    decide
  · have h : ⌊(25 / 2 : ℚ) * 10 + 1 / 2⌋ = (125 : Int) := by
      rw [Int.floor_eq_iff]
      norm_num
    simp only [get_chapter_directory, hser, hct, pyFormat051, h]
    decide

/-- Witness for naming_sanitization at the ASCII word class: the question
mark is replaced, a letter is kept, and the 12.5 rendering is produced. -/
theorem naming_sanitization_witness :
    sanitizeChar asciiWordChar '?' = '_' ∧
    sanitizeChar asciiWordChar 'A' = 'A' ∧
    get_chapter_directory asciiWordChar "Sword?Art/Online" (25 / 2) "Online" =
        "Sword_Art_Online/012.5 Online" :=
  ⟨(naming_sanitization asciiWordChar (fun _ _ => rfl)).1 '?'
      (by decide) (by decide),
   (naming_sanitization asciiWordChar (fun _ _ => rfl)).2.1 'A'
      (by decide) (by decide),
   (naming_sanitization asciiWordChar (fun _ _ => rfl)).2.2.2.2⟩

/-- C1 counterexample: a successful non-override run of _process_chapter
reaches a state where the cache holds the chapter id while the archive file
does not exist, because the cache write precedes archive packaging. -/
theorem cache_before_archive_counterexample :
    (process_chapter false ⟨.ok [], true, true, true⟩).err = none ∧
    ChapterState.mk true true false ∈
      (process_chapter false ⟨.ok [], true, true, true⟩).trace := by
  constructor
  · rfl
  · simp [process_chapter]

/-- C1 amended: in every non-override run whose download and cache steps
succeed, the chapter id is recorded in the cache before the metadata
descriptor and archive are built, so the run passes through a reachable
state with the id cached and no archive; a successful run still ends with
both cache entry and archive present; and a metadata-descriptor failure
after the cache write ends the run with the id cached and no archive ever
built. -/
theorem cache_before_archive (o : StepOutcomes) (pages : List String) :
    (o.pages = .ok pages → o.cacheOk = true →
        ChapterState.mk true true false ∈ (process_chapter false o).trace)
  ∧ ((process_chapter false o).err = none →
        lastState (process_chapter false o) = ChapterState.mk false true true)
  ∧ (o.pages = .ok pages → o.cacheOk = true → o.comicinfoOk = false →
        lastState (process_chapter false o) = ChapterState.mk false true false ∧
        (process_chapter false o).err = some PipelineError.comicInfo) := by
  obtain ⟨ps, cOk, ciOk, zOk⟩ := o
  cases ps <;> cases cOk <;> cases ciOk <;> cases zOk <;>
    simp [process_chapter, lastState, List.getLastD]

/-- Witness for cache_before_archive at an all-success run. -/
theorem cache_before_archive_witness :
    ChapterState.mk true true false ∈
        (process_chapter false ⟨.ok [], true, true, true⟩).trace ∧
    lastState (process_chapter false ⟨.ok [], true, true, true⟩) =
        ChapterState.mk false true true :=
  ⟨(cache_before_archive ⟨.ok [], true, true, true⟩ []).1 rfl rfl,
   (cache_before_archive ⟨.ok [], true, true, true⟩ []).2.1 rfl⟩

/-- C2 counterexample: when download_chapter fails after staging has begun,
_process_chapter propagates FailedImageError with the staging directory
still existing. -/
theorem cleanup_counterexample :
    (process_chapter false ⟨.error (), true, true, true⟩).err =
        some PipelineError.failedImage ∧
    (lastState (process_chapter false ⟨.error (), true, true, true⟩)).stagingExists =
        true := by
  constructor
  · rfl
  · rfl

/-- C2 amended: the staging directory does not exist when _process_chapter
returns from a successful run or from a metadata-descriptor or
archive-packaging failure, but a page-download failure or a cache-write
failure propagates with the staging directory still existing. -/
theorem cleanup_guarantee (override : Bool) (o : StepOutcomes) :
    ((process_chapter override o).err = none →
        (lastState (process_chapter override o)).stagingExists = false)
  ∧ ((process_chapter override o).err = some PipelineError.comicInfo ∨
       (process_chapter override o).err = some PipelineError.archiveWrite →
        (lastState (process_chapter override o)).stagingExists = false)
  ∧ ((process_chapter override o).err = some PipelineError.failedImage ∨
       (process_chapter override o).err = some PipelineError.cacheWrite →
        (lastState (process_chapter override o)).stagingExists = true) := by
  obtain ⟨ps, cOk, ciOk, zOk⟩ := o
  cases override <;> cases ps <;> cases cOk <;> cases ciOk <;> cases zOk <;>
    simp [process_chapter, lastState, List.getLastD]

/-- Witness for cleanup_guarantee at a successful run and a failed
download. -/
theorem cleanup_guarantee_witness :
    (lastState (process_chapter false ⟨.ok [], true, true, true⟩)).stagingExists =
        false ∧
    (lastState (process_chapter false ⟨.error (), true, true, true⟩)).stagingExists =
        true :=
  ⟨(cleanup_guarantee false ⟨.ok [], true, true, true⟩).1 rfl,
   (cleanup_guarantee false ⟨.error (), true, true, true⟩).2.2 (Or.inl rfl)⟩

/-- The read-modify-write body appends the chapter id under the series key,
creating the key when new. -/
theorem recordInDoc_lookup (sid cid : String) (doc : CacheDoc) :
    (recordInDoc doc sid cid).lookup sid =
      some (((doc.lookup sid).getD []) ++ [cid]) := by
  induction doc with
  | nil => simp [recordInDoc, List.lookup]
  | cons p t ih =>
    obtain ⟨k, l⟩ := p
    by_cases hk : k = sid
    · subst hk
      simp [recordInDoc, List.lookup]
    · have hb : (k == sid) = false := by
        rw [beq_eq_false_iff_ne]
        exact hk
      have hb2 : (sid == k) = false := by
        rw [beq_eq_false_iff_ne]
        exact Ne.symm hk
      simp [recordInDoc, List.lookup, hb, hb2, ih]

/-- C6: when the cache file is present the record operation succeeds in one
attempt, writing the document with the chapter id appended under the series
key (created when new); when the file is missing, exactly one retry is made
after re-initialization; if re-creation fails or the file is missing again
at the retry, the operation fails with the cache error, otherwise the
retried write succeeds on the re-created empty document. -/
theorem cache_write_retry (sid cid : String) (doc : CacheDoc) (r del : Bool) :
    (add_chapter_to_downloaded sid cid (some doc) r del =
        (.ok (recordInDoc doc sid cid), 1))
  ∧ ((add_chapter_to_downloaded sid cid none r del).2 = 2)
  ∧ (r = true → del = false →
        add_chapter_to_downloaded sid cid none r del =
          (.ok (recordInDoc [] sid cid), 2))
  ∧ ((r = false ∨ del = true) →
        (add_chapter_to_downloaded sid cid none r del).1 = .error ())
  ∧ ((recordInDoc doc sid cid).lookup sid =
        some (((doc.lookup sid).getD []) ++ [cid])) := by
  refine ⟨rfl, ?_, ?_, ?_, recordInDoc_lookup sid cid doc⟩
  · cases r <;> cases del <;> rfl
  · intro hr hd
    subst hr
    subst hd
    rfl
  · intro h
    cases r with
    | false => rfl
    | true =>
      cases del with
      | false =>
        rcases h with h | h <;> simp at h
      | true => rfl

/-- Witness for cache_write_retry: a successful retry on a missing file, a
failed re-creation, and an ordinary append. -/
theorem cache_write_retry_witness :
    add_chapter_to_downloaded "s1" "c2" none true false =
        (.ok (recordInDoc [] "s1" "c2"), 2) ∧
    (add_chapter_to_downloaded "s1" "c2" none false false).1 = .error () ∧
    add_chapter_to_downloaded "s1" "c2" (some [("s1", ["c1"])]) true false =
        (.ok (recordInDoc [("s1", ["c1"])] "s1" "c2"), 1) :=
  ⟨(cache_write_retry "s1" "c2" [] true false).2.2.1 rfl rfl,
   (cache_write_retry "s1" "c2" [] false false).2.2.2.1 (Or.inl rfl),
   (cache_write_retry "s1" "c2" [("s1", ["c1"])] true false).1⟩

/-- C7: filtering chapter ids against the exclusion set before resolving
them to full chapter records and resolving first then filtering by id give
the same chapter list, provided resolution returns records carrying the
requested id. -/
theorem filter_resolve_comm (resolve : String → ChapterInfo)
    (excluded : List String) (hid : ∀ i, (resolve i).id = i)
    (ids : List String) :
    filter_before_resolution resolve ids excluded =
      filter_after_resolution resolve ids excluded := by
  induction ids with
  | nil => rfl
  | cons a t ih =>
    simp only [filter_before_resolution, filter_after_resolution,
      get_series_chapters, List.map_cons, List.filter_cons] at ih ⊢
    rw [hid a]
    cases hc : excluded.contains a <;> simp [hc] <;> simpa using ih

/-- Witness for filter_resolve_comm at a two-chapter series with one
excluded id. -/
theorem filter_resolve_comm_witness :
    filter_before_resolution (fun i => ⟨i, "sid", 0, 0, "t"⟩) ["a", "b"] ["a"] =
      filter_after_resolution (fun i => ⟨i, "sid", 0, 0, "t"⟩) ["a", "b"] ["a"] :=
  filter_resolve_comm (fun i => ⟨i, "sid", 0, 0, "t"⟩) ["a"]
    (fun _ => rfl) ["a", "b"]

/-- C8: a chapter id recorded under any series of the cache is excluded:
handle_chapter_id does not process it with override disabled, and the
series branch filters it out of the ids to resolve; with override enabled
the exclusion set is empty. -/
theorem dedup_idempotence (cache : CacheDoc) (cid : String) :
    ((∃ p ∈ cache, cid ∈ p.2) →
        handle_chapter_id_processes false cache cid = false)
  ∧ ((∃ p ∈ cache, cid ∈ p.2) → ∀ ids : List String,
        cid ∉ ids.filter
          (fun i => !(get_excluded_chapters_from_cache false cache).contains i))
  ∧ get_excluded_chapters_from_cache true cache = [] := by
  have hmem : (∃ p ∈ cache, cid ∈ p.2) →
      cid ∈ (cache.map Prod.snd).flatten := by
    rintro ⟨p, hp, hc⟩
    exact List.mem_flatten.mpr ⟨p.2, List.mem_map.mpr ⟨p, hp, rfl⟩, hc⟩
  refine ⟨?_, ?_, rfl⟩
  · intro h
    have hc := hmem h
    simp [handle_chapter_id_processes, get_excluded_chapters_from_cache, hc]
  · intro h ids hin
    have hc := hmem h
    have h2 := (List.mem_filter.mp hin).2
    simp [get_excluded_chapters_from_cache, hc] at h2

/-- Witness for dedup_idempotence: a cached chapter id is not processed
again. -/
theorem dedup_idempotence_witness :
    handle_chapter_id_processes false [("s1", ["c1"])] "c1" = false :=
  (dedup_idempotence [("s1", ["c1"])] "c1").1 ⟨("s1", ["c1"]), by simp, by simp⟩

/-- A ValueError from the float conversion comes from a string the decimal
parser rejects. -/
theorem pyFloatOf_valueErr (j : JVal)
    (h : pyFloatOf j = .error NumErr.valueErr) :
    ∃ s, j = .str s ∧ parseDecimal s = none := by
  cases j with
  | num q => simp [pyFloatOf] at h
  | null => simp [pyFloatOf] at h
  | str s =>
    refine ⟨s, rfl, ?_⟩
    cases hp : parseDecimal s with
    | none => rfl
    | some q => rw [pyFloatOf, hp] at h; simp at h

/-- A ValueError from the int conversion comes from a string the digit
parser rejects. -/
theorem pyIntOf_valueErr (j : JVal)
    (h : pyIntOf j = .error NumErr.valueErr) :
    ∃ s, j = .str s ∧ parsePyInt s = none := by
  cases j with
  | num q => simp [pyIntOf] at h
  | null => simp [pyIntOf] at h
  | str s =>
    refine ⟨s, rfl, ?_⟩
    cases hp : parsePyInt s with
    | none => rfl
    | some n => rw [pyIntOf, hp] at h; simp at h

/-- C9: an absent chapter attribute defaults to 0 and an absent volume
attribute defaults to 0 before conversion, so the numeric block never fails
on omitted attributes and the returned record always carries both numbers;
the ValueError is raised only for an attribute value that is present but
non-numeric. -/
theorem chapter_volume_defaults (ca va : Option JVal) :
    (get_chapter_info_numbers none va =
        Except.map (fun v => ((0 : ℚ), v)) (pyIntOf (va.getD (.num 0))))
  ∧ (get_chapter_info_numbers ca none =
        Except.map (fun c => (c, (0 : Int))) (pyFloatOf (ca.getD (.num 0))))
  ∧ (get_chapter_info_numbers ca va = .error NumErr.valueErr →
        (∃ s, ca = some (.str s) ∧ parseDecimal s = none) ∨
        (∃ s, va = some (.str s) ∧ parsePyInt s = none)) := by
  refine ⟨?_, ?_, ?_⟩
  · cases hv : pyIntOf (va.getD (.num 0)) <;>
      simp [get_chapter_info_numbers, pyFloatOf, hv, Except.map,
        Bind.bind, Except.bind, Pure.pure, Except.pure]
  · cases hf : pyFloatOf (ca.getD (.num 0)) <;>
      simp [get_chapter_info_numbers, pyIntOf, hf, Except.map,
        Bind.bind, Except.bind, Pure.pure, Except.pure]
  · intro herr
    simp only [get_chapter_info_numbers] at herr
    cases hf : pyFloatOf (ca.getD (.num 0)) with
    | error e =>
      rw [hf] at herr
      have he : e = NumErr.valueErr := by
        simpa [Bind.bind, Except.bind] using herr
      subst he
      obtain ⟨s, hs, hp⟩ := pyFloatOf_valueErr _ hf
      left
      refine ⟨s, ?_, hp⟩
      cases ca with
      | none => simp at hs
      | some j => rw [Option.getD_some] at hs; rw [hs]
    | ok c =>
      rw [hf] at herr
      cases hi : pyIntOf (va.getD (.num 0)) with
      | error e2 =>
        rw [hi] at herr
        have he : e2 = NumErr.valueErr := by
          simpa [Bind.bind, Except.bind] using herr
        subst he
        obtain ⟨s, hs, hp⟩ := pyIntOf_valueErr _ hi
        right
        refine ⟨s, ?_, hp⟩
        cases va with
        | none => simp at hs
        | some j => rw [Option.getD_some] at hs; rw [hs]
      | ok v =>
        rw [hi] at herr
        simp [Bind.bind, Except.bind, Pure.pure, Except.pure] at herr

/-- Witness for chapter_volume_defaults: a present non-numeric chapter
attribute yields the ValueError traced to its string. -/
theorem chapter_volume_defaults_witness :
    (∃ s, some (JVal.str "abc") = some (JVal.str s) ∧ parseDecimal s = none) ∨
    (∃ s, (none : Option JVal) = some (JVal.str s) ∧ parsePyInt s = none) :=
  (chapter_volume_defaults (some (.str "abc")) none).2.2 rfl

/-- C10: when the hosting data is absent the page-URL list is empty, and an
empty page list makes download_chapter return successfully with no page
files staged, so the pipeline proceeds to build an archive containing zero
pages rather than failing. -/
theorem empty_chapter_ok (b h : Option String) (att : ℕ → ℕ → AttemptOutcome)
    (ov : Bool) :
    get_chapter_image_urls b h none = []
  ∧ download_chapter [] att = .ok []
  ∧ download_chapter (get_chapter_image_urls b h none) att = .ok []
  ∧ (process_chapter ov ⟨.ok [], true, true, true⟩).err = none
  ∧ (process_chapter ov ⟨.ok [], true, true, true⟩).archivedPages = some [] := by
  refine ⟨rfl, rfl, rfl, ?_, ?_⟩ <;> (cases ov <;> rfl)

end MangadexDl
